import Mathlib

/-!
Shallow embedding of the JAS39 planner UI-state layer: the Zod validation
schemas (`taskSchema.ts`, `eventSchema.ts`), the form submission pipelines
(`TaskForm.tsx`, `EventForm.tsx`), the Zustand stores (`useUiStore.ts`,
`useTaskStore.ts`, `useEventStore.ts`) and the task list query construction
(`useFetchTasks` / `fetchTasks`).

JavaScript `Date` values are modelled by an order-preserving `Nat` key over
the two ISO shapes this codebase produces ("YYYY-MM-DD" from date inputs and
"YYYY-MM-DDTHH:mm" from datetime-local inputs); strings outside these shapes
map to `none`, mirroring Invalid Date (NaN), and every comparison against a
NaN operand is `false` exactly as in JavaScript.  Timezone offsets are taken
as zero.
-/

namespace JasUi

/-- Truthiness of an optional JavaScript string: `undefined`/`null` and the
empty string are falsy, every other string is truthy. -/
def jsTruthy : Option String → Bool
  | none => false
  | some s => s ≠ ""

/-- Numeric value of a decimal digit character, `none` otherwise. -/
def digitVal (c : Char) : Option Nat :=
  if c.isDigit then some (c.toNat - 48) else none

/-- Leap year test (Gregorian calendar), as used by JavaScript `Date`. -/
def isLeap (y : Nat) : Bool :=
  (y % 4 == 0 && y % 100 != 0) || y % 400 == 0

/-- Number of days in month `m` of year `y`. -/
def daysInMonth (y m : Nat) : Nat :=
  if m == 2 then (if isLeap y then 29 else 28)
  else if m == 4 || m == 6 || m == 9 || m == 11 then 30
  else 31

/-- Key of a calendar date, strictly increasing in (year, month, day)
lexicographic order (month < 16 and day < 32 make the packing injective). -/
def dateKey (y m d : Nat) : Nat :=
  (y * 16 + m) * 32 + d

/-- Parse the eight digit characters of "YYYY-MM-DD" into a `dateKey`,
rejecting out-of-range months and days the way JavaScript ISO `Date`
parsing produces Invalid Date for them. -/
def ymdVal (y1 y2 y3 y4 m1 m2 d1 d2 : Char) : Option Nat := do
  let a ← digitVal y1
  let b ← digitVal y2
  let c ← digitVal y3
  let e ← digitVal y4
  let f ← digitVal m1
  let g ← digitVal m2
  let h ← digitVal d1
  let i ← digitVal d2
  let y := ((a * 10 + b) * 10 + c) * 10 + e
  let m := f * 10 + g
  let d := h * 10 + i
  if 1 ≤ m ∧ m ≤ 12 ∧ 1 ≤ d ∧ d ≤ daysInMonth y m then
    some (dateKey y m d)
  else
    none

/-- Parse the four digit characters of "HH:mm" into minutes since midnight,
with the same bounds as the schema regex ([0-1]\d|2[0-3]):([0-5]\d). -/
def hmVal (h1 h2 n1 n2 : Char) : Option Nat := do
  let a ← digitVal h1
  let b ← digitVal h2
  let c ← digitVal n1
  let d ← digitVal n2
  let h := a * 10 + b
  let n := c * 10 + d
  if h ≤ 23 ∧ n ≤ 59 then some (h * 60 + n) else none

/-- JavaScript `new Date(s)` / `Date.parse(s)` on the ISO strings this code
produces, as an order-preserving minute-scale key; `none` is Invalid Date. -/
def jsDateVal (s : String) : Option Nat :=
  match s.data with
  | [y1, y2, y3, y4, '-', m1, m2, '-', d1, d2] =>
      (ymdVal y1 y2 y3 y4 m1 m2 d1 d2).map (fun k => k * 1440)
  | [y1, y2, y3, y4, '-', m1, m2, '-', d1, d2, 'T', h1, h2, ':', n1, n2] => do
      let k ← ymdVal y1 y2 y3 y4 m1 m2 d1 d2
      let t ← hmVal h1 h2 n1 n2
      some (k * 1440 + t)
  | _ => none

/-- The schema regex `^([0-1]\d|2[0-3]):([0-5]\d)$` for "HH:mm" clock times,
returning the parsed minutes when it matches. -/
def clockVal (s : String) : Option Nat :=
  match s.data with
  | [h1, h2, ':', n1, n2] => hmVal h1 h2 n1 n2
  | _ => none

/-- JavaScript `a >= b` on two `Date` values: `false` whenever either side is
Invalid Date (NaN). -/
def jsGe : Option Nat → Option Nat → Bool
  | some a, some b => b ≤ a
  | _, _ => false

/-- JavaScript `a > b` on two `Date` values: `false` whenever either side is
Invalid Date (NaN). -/
def jsGt : Option Nat → Option Nat → Bool
  | some a, some b => b < a
  | _, _ => false

/-- A Zod validation issue: a field path plus a message. -/
structure ZodIssue where
  path : List String
  message : String
deriving Repr, DecidableEq

/-- The list of issues a single check contributes: none when it passes. -/
def issueIf (ok : Bool) (path : List String) (msg : String) : List ZodIssue :=
  if ok then [] else [⟨path, msg⟩]

/-! ### Task schema (src/features/tasks/forms/taskSchema.ts) -/

/-- Input to `subtaskSchema`: `{ id?, title?, completed }`. -/
structure SubtaskInput where
  id : Option String := none
  title : Option String := none
  completed : Bool := false
deriving Repr, DecidableEq

/-- The `subtaskSchema.title` refine, after the `.trim()` transform: the code
is `(val) => !val || val.length > 0` where `val` is the trimmed optional
title, so an empty trimmed string short-circuits as falsy. -/
def subtaskTitleOk (title : Option String) : Bool :=
  let val := title.map String.trim
  !(jsTruthy val) || (val.getD "").length > 0

/-- Issues produced by `subtaskSchema` on one subtask (`id` and `completed`
are typed fields with no refinement, so only the title check can fire). -/
def subtaskIssues (st : SubtaskInput) : List ZodIssue :=
  issueIf (subtaskTitleOk st.title) ["title"] "Subtask name cannot be empty."

/-- Input to `taskSchema` (the `TaskFormValues` shape). `priority` and
`status` are raw strings, validated against the enum lists by the schema. -/
structure TaskFormValues where
  title : String
  description : Option String := none
  priority : String
  status : String
  dueDate : Option String := none
  assignees : List String
  relatedEventName : Option String := none
  isPersonal : Bool := false
  isScheduled : Bool := false
  scheduleStart : Option String := none
  scheduleEnd : Option String := none
  subtasks : List SubtaskInput := []
  attachments : List String := []
deriving Repr, DecidableEq

/-- Allowed task priorities, from `z.enum(["Urgent", "High", "Normal", "Low"])`. -/
def priorityEnum : List String := ["Urgent", "High", "Normal", "Low"]

/-- Allowed task statuses, from `z.enum(["To Do", "In Progress", "Done"])`. -/
def statusEnum : List String := ["To Do", "In Progress", "Done"]

/-- `title: z.string().min(1)` — the length check runs before the trim. -/
def taskTitleOk (v : TaskFormValues) : Bool :=
  1 ≤ v.title.length

/-- `dueDate` refine: `(date) => !date || new Date(date) >= new Date()`,
where `now` is the moment validation runs. -/
def dueDateOk (now : Nat) (v : TaskFormValues) : Bool :=
  !(jsTruthy v.dueDate) || jsGe (jsDateVal (v.dueDate.getD "")) (some now)

/-- `assignees: z.array(z.string()).min(1)` — unconditional, with no
`isPersonal` exemption in the code. -/
def assigneesOk (v : TaskFormValues) : Bool :=
  1 ≤ v.assignees.length

/-- `scheduleEnd` refine, embedded at its evident cross-field intent (the
source reads `scheduleStart` and `isScheduled` from the parent object):
`if (!isScheduled || !end || !scheduleStart) return true` else compare the
two parsed dates.  Empty strings are falsy, so they also pass. -/
def scheduleEndOk (v : TaskFormValues) : Bool :=
  if !v.isScheduled || !(jsTruthy v.scheduleEnd) || !(jsTruthy v.scheduleStart) then
    true
  else
    jsGe (jsDateVal (v.scheduleEnd.getD "")) (jsDateVal (v.scheduleStart.getD ""))

/-- All issues `taskSchema` reports on input `v` when validated at moment
`now`, in field order.  `description`, `relatedEventName`, `isPersonal`,
`isScheduled`, `scheduleStart` and `attachments` are typed fields without
refinements and cannot fail; subtask issue paths are abbreviated to the
per-subtask path. -/
def taskIssues (now : Nat) (v : TaskFormValues) : List ZodIssue :=
  issueIf (taskTitleOk v) ["title"] "Please enter a task title."
    ++ issueIf (priorityEnum.contains v.priority) ["priority"] "Please select a priority."
    ++ issueIf (statusEnum.contains v.status) ["status"] "Please select a status."
    ++ issueIf (dueDateOk now v) ["dueDate"] "Due date cannot be in the past."
    ++ issueIf (assigneesOk v) ["assignees"] "Please select at least one assignee."
    ++ issueIf (scheduleEndOk v) ["scheduleEnd"] "End time must be after start time."
    ++ v.subtasks.flatMap subtaskIssues

/-- `taskSchema` accepts `v` iff it reports no issue. -/
def taskValid (now : Nat) (v : TaskFormValues) : Bool :=
  (taskIssues now v).isEmpty

/-- Spec-side predicate, written from claim C1's words for comparison with
the code: validation fails iff title is empty; priority or status is outside
its enumerated set; dueDate is present and earlier than the current moment;
assignees is empty while isPersonal is false; or isScheduled is true and
either schedule bound is missing or scheduleEnd is before scheduleStart. -/
def specTaskValidationFails (now : Nat) (v : TaskFormValues) : Bool :=
  v.title == ""
    || !(priorityEnum.contains v.priority)
    || !(statusEnum.contains v.status)
    || (jsTruthy v.dueDate && !(jsGe (jsDateVal (v.dueDate.getD "")) (some now)))
    || (v.assignees.isEmpty && !v.isPersonal)
    || (v.isScheduled
         && (!(jsTruthy v.scheduleStart) || !(jsTruthy v.scheduleEnd)
              || !(jsGe (jsDateVal (v.scheduleEnd.getD "")) (jsDateVal (v.scheduleStart.getD "")))))

/-! ### TaskForm submission (src/features/tasks/forms/TaskForm.tsx) -/

/-- The payload `TaskForm.onSubmit` hands to the create/update mutation,
composed with the resolver: react-hook-form's `handleSubmit(onSubmit)` runs
`zodResolver(taskSchema)` first and calls `onSubmit` only when validation
passes; `onSubmit` then overrides `assignees` with `[currentUserId]` when
the task is personal or no event is attached.  The result is the mutation
payload, or `none` when validation blocked submission. -/
def taskFormSubmit (now : Nat) (currentUserId : Option String)
    (eventId : Option String) (v : TaskFormValues) : Option TaskFormValues :=
  if (taskIssues now v).isEmpty then
    some
      (if v.isPersonal || !(jsTruthy eventId) then
        { v with assignees := match currentUserId with
            | some u => [u]
            | none => [] }
      else v)
  else
    none

/-! ### Event schema (src/features/events/forms/eventSchema.ts) -/

/-- Input to `eventSchema` (the `EventFormValues` shape). -/
structure EventFormValues where
  title : String
  description : Option String := none
  location : Option String := none
  isMultiDay : Bool := false
  startDate : String
  endDate : Option String := none
  startTime : String
  endTime : String
  color : Option String := none
  coverImage : Option String := none
  participants : List String := []
deriving Repr, DecidableEq

/-- Hex digit test for the color regex. -/
def isHexDigit (c : Char) : Bool :=
  c.isDigit || ('A' ≤ c && c ≤ 'F') || ('a' ≤ c && c ≤ 'f')

/-- The color regex `^#([0-9A-F]{3}){1,2}$` (case-insensitive): a hash sign
followed by exactly three or six hex digits. -/
def isHexColor (s : String) : Bool :=
  match s.data with
  | ['#', a, b, c] => isHexDigit a && isHexDigit b && isHexDigit c
  | ['#', a, b, c, d, e, f] =>
      isHexDigit a && isHexDigit b && isHexDigit c
        && isHexDigit d && isHexDigit e && isHexDigit f
  | _ => false

/-- `color`: optional with default "#3B82F6"; when a string is provided it
must match the hex color regex. -/
def colorOk : Option String → Bool
  | none => true
  | some s => isHexColor s

/-- The field-level issues of `eventSchema`, in declaration order: title
min(1)/max(100); startDate min(1) and parseable; endDate refine
`!val || !isNaN(Date.parse(val))`; startTime/endTime min(1) plus the HH:mm
regex; color regex with default. -/
def eventFieldIssues (v : EventFormValues) : List ZodIssue :=
  issueIf (1 ≤ v.title.length) ["title"] "Please fill out this field"
    ++ issueIf (v.title.length ≤ 100) ["title"] "Title is too long"
    ++ issueIf (1 ≤ v.startDate.length) ["startDate"] "Start date is required"
    ++ issueIf (jsDateVal v.startDate).isSome ["startDate"] "Invalid start date format"
    ++ issueIf (!(jsTruthy v.endDate) || (jsDateVal (v.endDate.getD "")).isSome)
        ["endDate"] "Invalid end date format"
    ++ issueIf (1 ≤ v.startTime.length) ["startTime"] "Start time is required"
    ++ issueIf (clockVal v.startTime).isSome ["startTime"] "Invalid time format (HH:mm)"
    ++ issueIf (1 ≤ v.endTime.length) ["endTime"] "End time is required"
    ++ issueIf (clockVal v.endTime).isSome ["endTime"] "Invalid time format (HH:mm)"
    ++ issueIf (colorOk v.color) ["color"] "Invalid color code"

/-- First object-level refine: when `isMultiDay` and an `endDate` was
provided (truthy), require `new Date(endDate) >= new Date(startDate)`. -/
def endDateRefineOk (v : EventFormValues) : Bool :=
  if v.isMultiDay && jsTruthy v.endDate then
    jsGe (jsDateVal (v.endDate.getD "")) (jsDateVal v.startDate)
  else
    true

/-- Second object-level refine: when not `isMultiDay`, build
`new Date("1970-01-01T" ++ t ++ ":00")` for both times — which is a valid
date exactly when `t` is an "HH:mm" clock time, at that minute offset — and
require strict `end > start`. -/
def endTimeRefineOk (v : EventFormValues) : Bool :=
  if !v.isMultiDay then jsGt (clockVal v.endTime) (clockVal v.startTime)
  else true

/-- All issues `eventSchema` reports: field checks, then the two refines
(Zod runs object-level refinements after the field parse, collecting every
issue; the two refine messages carry their `path` annotations). -/
def eventIssues (v : EventFormValues) : List ZodIssue :=
  eventFieldIssues v
    ++ issueIf (endDateRefineOk v) ["endDate"] "End date must be start date or later"
    ++ issueIf (endTimeRefineOk v) ["endTime"] "End time must be after start time"

/-- `eventSchema` accepts `v` iff it reports no issue. -/
def eventValid (v : EventFormValues) : Bool :=
  (eventIssues v).isEmpty

/-! ### UI store (src/stores/useUiStore.ts) -/

/-- The five dashboard widget visibility toggles. -/
structure DashboardWidgetState where
  upcomingEvents : Bool
  upcomingDeadlines : Bool
  recentActivity : Bool
  progressOverview : Bool
  miniCalendar : Bool
deriving Repr, DecidableEq

/-- A date range of two nullable `Date` values (modelled as date keys). -/
structure DateRange where
  startDate : Option Nat
  endDate : Option Nat
deriving Repr, DecidableEq

/-- The advanced filter block of the UI store. -/
structure AdvancedFilters where
  advancedStatus : List String
  advancedPriority : List String
  advancedAssignees : List String
  advancedDateRange : Option DateRange
  hasActiveFilters : Bool
deriving Repr, DecidableEq

/-- The full `UiStore` state (every data field of the interface; the actions
are modelled as functions on this state below). -/
structure UiState where
  isEventFormOpen : Bool
  isTaskFormOpen : Bool
  isCustomizeDashboardOpen : Bool
  isFilterPanelOpen : Bool
  isUserSettingsOpen : Bool
  taskFilterStatus : String
  taskSortBy : String
  taskSortDirection : String
  advancedFilters : AdvancedFilters
  showCompletedTasks : Bool
  showPersonalTasks : Bool
  currentEventId : Option String
  currentTaskId : Option String
  theme : String
  isSidebarCollapsed : Bool
  dashboardWidgetState : DashboardWidgetState
  viewMode : String
deriving Repr, DecidableEq

/-- The compiled-in initial state of the UI store. -/
def initialUiState : UiState where
  isEventFormOpen := false
  isTaskFormOpen := false
  isCustomizeDashboardOpen := false
  isFilterPanelOpen := false
  isUserSettingsOpen := false
  taskFilterStatus := "Due Date"
  taskSortBy := "Priority"
  taskSortDirection := "desc"
  advancedFilters :=
    { advancedStatus := []
      advancedPriority := []
      advancedAssignees := []
      advancedDateRange := none
      hasActiveFilters := false }
  showCompletedTasks := true
  showPersonalTasks := true
  currentEventId := none
  currentTaskId := none
  theme := "dark"
  isSidebarCollapsed := false
  dashboardWidgetState :=
    { upcomingEvents := true
      upcomingDeadlines := true
      recentActivity := true
      progressOverview := true
      miniCalendar := false }
  viewMode := "list"

/-- The `closeAllModals` action: one `set` call merging a partial record
that clears the five modal flags and both current selection ids.  Zustand's
`set` applies the whole partial in a single synchronous update. -/
def closeAllModals (s : UiState) : UiState :=
  { s with
    isEventFormOpen := false
    isTaskFormOpen := false
    isCustomizeDashboardOpen := false
    isFilterPanelOpen := false
    isUserSettingsOpen := false
    currentEventId := none
    currentTaskId := none }

/-- The persisted record produced by `partialize`: exactly the nine
whitelisted preference fields, nothing else. -/
structure PersistedUi where
  theme : String
  isSidebarCollapsed : Bool
  taskFilterStatus : String
  taskSortBy : String
  taskSortDirection : String
  dashboardWidgetState : DashboardWidgetState
  viewMode : String
  showCompletedTasks : Bool
  showPersonalTasks : Bool
deriving Repr, DecidableEq

/-- The `partialize` option of the persist middleware. -/
def partialize (s : UiState) : PersistedUi where
  theme := s.theme
  isSidebarCollapsed := s.isSidebarCollapsed
  taskFilterStatus := s.taskFilterStatus
  taskSortBy := s.taskSortBy
  taskSortDirection := s.taskSortDirection
  dashboardWidgetState := s.dashboardWidgetState
  viewMode := s.viewMode
  showCompletedTasks := s.showCompletedTasks
  showPersonalTasks := s.showPersonalTasks

/-- Rehydration on reload: zustand's persist middleware spreads the stored
partial record over the freshly constructed initial state, so every
non-persisted field carries its compiled-in default. -/
def rehydrateUi (p : PersistedUi) : UiState :=
  { initialUiState with
    theme := p.theme
    isSidebarCollapsed := p.isSidebarCollapsed
    taskFilterStatus := p.taskFilterStatus
    taskSortBy := p.taskSortBy
    taskSortDirection := p.taskSortDirection
    dashboardWidgetState := p.dashboardWidgetState
    viewMode := p.viewMode
    showCompletedTasks := p.showCompletedTasks
    showPersonalTasks := p.showPersonalTasks }

/-! ### Task and event store local state (useTaskStore.ts / useEventStore.ts) -/

/-- The local (zustand) state of `useTaskStore`. -/
structure TaskLocalState where
  selectedTaskId : Option String
  totalCount : Nat
  showingCount : Nat
  searchKeyword : String
  quickFilter : String
  taskSortBy : String
  taskSortDirection : String
  viewMode : String
  filterByStatus : List String
  filterByPriority : List String
  showCompletedTasks : Bool
  showPersonalTasks : Bool
deriving Repr, DecidableEq

/-- The local (zustand) state of `useEventStore`. -/
structure EventLocalState where
  selectedEventId : Option String
  searchKeyword : String
  eventSortBy : String
  eventSortDirection : String
  filterByProgress : List String
  filterByDate : List String
  totalCount : Nat
  showingCount : Nat
deriving Repr, DecidableEq

/-- The three stores side by side.  They are independent zustand stores:
an action of one store updates only its own slice. -/
structure AppStores where
  ui : UiState
  tasks : TaskLocalState
  events : EventLocalState
deriving Repr, DecidableEq

/-- `closeAllModals` viewed on the whole application state: it is an action
of `useUiStore` only (useUiStore.ts lines 129-139); nothing in it touches
`useTaskStore.selectedTaskId` or `useEventStore.selectedEventId`. -/
def closeAllModalsApp (s : AppStores) : AppStores :=
  { s with ui := closeAllModals s.ui }

/-! ### Task rows, updates and the list query (useTaskStore.ts) -/

/-- A stored task row (the fields of the `Task` interface this layer reads
and writes; optional interface fields irrelevant to the verified operations
are omitted from the projection). -/
structure Task where
  id : String
  title : String
  description : Option String := none
  priority : String
  status : String
  dueDate : Option String := none
  assignees : List String := []
  isPersonal : Bool := false
  progress : Option Nat := none
deriving Repr, DecidableEq

/-- A partial task update payload (`Partial<Task>` restricted to the same
projection): `none` means the field is absent from the payload.  A field
set to `undefined` in JavaScript is dropped by JSON serialization before
the request, so it is `none` here. -/
structure TaskUpdate where
  title : Option String := none
  priority : Option String := none
  status : Option String := none
  dueDate : Option (Option String) := none
  assignees : Option (List String) := none
  isPersonal : Option Bool := none
  progress : Option Nat := none
deriving Repr, DecidableEq

/-- `updateTask`'s effect on a stored row: a partial replace of exactly the
fields present in the payload. -/
def applyUpdate (t : Task) (u : TaskUpdate) : Task where
  id := t.id
  title := u.title.getD t.title
  description := t.description
  priority := u.priority.getD t.priority
  status := u.status.getD t.status
  dueDate := u.dueDate.getD t.dueDate
  assignees := u.assignees.getD t.assignees
  isPersonal := u.isPersonal.getD t.isPersonal
  progress := match u.progress with
    | some p => some p
    | none => t.progress

/-- The payload `useMarkTaskComplete` builds:
`{ status: completed ? "Done" : "In Progress", progress: completed ? 100 : undefined }`.
The `undefined` progress is dropped from the serialized update. -/
def markCompletePayload (completed : Bool) : TaskUpdate where
  status := some (if completed then "Done" else "In Progress")
  progress := if completed then some 100 else none

/-- The query parameters `useFetchTasks` passes to `fetchTasks`. -/
structure TaskQueryParams where
  search : String
  quickFilter : String
  sortBy : String
  sortDirection : String
  status : String
  priority : String
  showCompleted : String
  showPersonal : String
deriving Repr, DecidableEq

/-- Parameter construction in `useFetchTasks`: the status and priority
filter lists are joined with commas; the booleans become "1"/"0". -/
def buildTaskParams (st : TaskLocalState) : TaskQueryParams where
  search := st.searchKeyword
  quickFilter := st.quickFilter
  sortBy := st.taskSortBy
  sortDirection := st.taskSortDirection
  status := String.intercalate "," st.filterByStatus
  priority := String.intercalate "," st.filterByPriority
  showCompleted := if st.showCompletedTasks then "1" else "0"
  showPersonal := if st.showPersonalTasks then "1" else "0"

/-- `xs` occurs as a leading block of `ys`. -/
def leadsList : List Char → List Char → Bool
  | [], _ => true
  | _ :: _, [] => false
  | a :: as, b :: bs => a == b && leadsList as bs

/-- `p` occurs as a contiguous block somewhere in the second list. -/
def occursInList (p : List Char) : List Char → Bool
  | [] => leadsList p []
  | c :: cs => leadsList p (c :: cs) || occursInList p cs

/-- The `ilike("title", %search%)` condition: case-insensitive substring. -/
def ilikeMatch (search title : String) : Bool :=
  occursInList search.toLower.data title.toLower.data

/-- The search branch of `fetchTasks`: applied only when `params.search`
is truthy. -/
def searchFilterOk (p : TaskQueryParams) (t : Task) : Bool :=
  if p.search ≠ "" then ilikeMatch p.search t.title else true

/-- The status branch of `fetchTasks`: `if (params.status)` — skipped
entirely when the joined parameter is the empty string, otherwise an
exact-match-in-set restriction over the comma-split list. -/
def statusFilterOk (p : TaskQueryParams) (t : Task) : Bool :=
  if p.status ≠ "" then (p.status.splitOn ",").contains t.status else true

/-- The priority branch of `fetchTasks`, same shape as the status branch. -/
def priorityFilterOk (p : TaskQueryParams) (t : Task) : Bool :=
  if p.priority ≠ "" then (p.priority.splitOn ",").contains t.priority else true

/-- The completed branch: `neq("status", "Done")` only when
`showCompleted` is "0". -/
def completedFilterOk (p : TaskQueryParams) (t : Task) : Bool :=
  if p.showCompleted = "0" then t.status ≠ "Done" else true

/-- The personal branch: `eq("isPersonal", false)` only when
`showPersonal` is "0". -/
def personalFilterOk (p : TaskQueryParams) (t : Task) : Bool :=
  if p.showPersonal = "0" then t.isPersonal = false else true

/-- Row selection of the `fetchTasks` supabase query: the conjunction of
its filter branches over the stored rows.  The trailing `.order` clause
only permutes the result and does not affect membership, so it is not part
of the selection model. -/
def fetchTasksRows (p : TaskQueryParams) (db : List Task) : List Task :=
  db.filter fun t =>
    searchFilterOk p t && statusFilterOk p t && priorityFilterOk p t
      && completedFilterOk p t && personalFilterOk p t

/-! ### Concrete inputs used by the scenario and witness theorems -/

/-- The personal-task scenario input: `{title:"Brief crew", priority:"High",
status:"To Do", isPersonal:true, assignees:[]}`. -/
def briefCrewTask : TaskFormValues where
  title := "Brief crew"
  priority := "High"
  status := "To Do"
  assignees := []
  isPersonal := true

/-- A task input whose only defect is an empty title. -/
def emptyTitleTask : TaskFormValues where
  title := ""
  priority := "High"
  status := "To Do"
  assignees := ["u1"]

/-- The multi-day scenario event: `{title:"Drill", isMultiDay:true,
startDate:"2025-11-01", endDate:"2025-10-31", startTime:"09:00",
endTime:"10:00"}`. -/
def drillEvent : EventFormValues where
  title := "Drill"
  isMultiDay := true
  startDate := "2025-11-01"
  endDate := some "2025-10-31"
  startTime := "09:00"
  endTime := "10:00"

/-- A single-day event whose fields all pass the field-level checks. -/
def standupEvent : EventFormValues where
  title := "Standup"
  startDate := "2025-11-01"
  startTime := "09:00"
  endTime := "10:00"

/-- An application state with a task form open and live selections in all
three stores. -/
def sampleStores : AppStores where
  ui := { initialUiState with isTaskFormOpen := true, currentTaskId := some "t1" }
  tasks :=
    { selectedTaskId := some "t1"
      totalCount := 1
      showingCount := 1
      searchKeyword := ""
      quickFilter := "Due Date"
      taskSortBy := "Due Date (Earliest)"
      taskSortDirection := "asc"
      viewMode := "List View"
      filterByStatus := ["To Do", "In Progress", "Done"]
      filterByPriority := ["Urgent", "High", "Normal", "Low"]
      showCompletedTasks := true
      showPersonalTasks := true }
  events :=
    { selectedEventId := some "e1"
      searchKeyword := ""
      eventSortBy := "Start Date (Soonest)"
      eventSortDirection := "asc"
      filterByProgress := ["Not Started", "In Progress", "Completed"]
      filterByDate := ["Past Events", "This Week", "This Month", "Future Events"]
      totalCount := 1
      showingCount := 1 }

/-- A task store state whose status and priority filter lists are empty. -/
def emptyFilterState : TaskLocalState where
  selectedTaskId := none
  totalCount := 0
  showingCount := 0
  searchKeyword := ""
  quickFilter := "Due Date"
  taskSortBy := "Due Date (Earliest)"
  taskSortDirection := "asc"
  viewMode := "List View"
  filterByStatus := []
  filterByPriority := []
  showCompletedTasks := true
  showPersonalTasks := true

/-- Two stored rows with different statuses and priorities. -/
def sampleDb : List Task :=
  [{ id := "1", title := "Refuel", priority := "High", status := "Done" },
   { id := "2", title := "Brief", priority := "Low", status := "To Do" }]

/-! ### Helper lemmas -/

/-- A check contributes no issue exactly when it passes. -/
theorem issueIf_eq_nil (ok : Bool) (p : List String) (m : String) :
    issueIf ok p m = [] ↔ ok = true := by
  cases ok <;> simp [issueIf]

/-- Joining the empty list yields the empty string, like `[].join(",")`. -/
theorem intercalate_nil (s : String) : s.intercalate [] = "" := rfl

/-- A string has positive length exactly when it is not the empty string. -/
theorem one_le_strLength_iff (s : String) : 1 ≤ s.length ↔ s ≠ "" := by
  constructor
  · intro h he
    subst he
    simp at h
  · intro h
    rcases Nat.eq_zero_or_pos s.length with h0 | h1
    · exact absurd (String.ext (List.length_eq_zero.mp h0)) h
    · exact h1

/-- The subtask title refine is vacuous: an absent title passes, a title
whose trim is empty passes because the empty string is falsy in
`!val || val.length > 0`, and a title with a nonempty trim passes the
length test. -/
theorem subtaskIssues_eq_nil (st : SubtaskInput) : subtaskIssues st = [] := by
  rw [subtaskIssues, issueIf_eq_nil, subtaskTitleOk]
  cases st.title with
  | none => rfl
  | some s =>
    by_cases he : s.trim = ""
    · simp [jsTruthy, he]
    · simp [jsTruthy, he, Nat.lt_iff_add_one_le, one_le_strLength_iff]

/-- `taskSchema` reports no issue exactly when all six live checks pass. -/
theorem taskIssues_eq_nil_iff (now : Nat) (v : TaskFormValues) :
    taskIssues now v = [] ↔
      (taskTitleOk v = true ∧ priorityEnum.contains v.priority = true
        ∧ statusEnum.contains v.status = true ∧ dueDateOk now v = true
        ∧ assigneesOk v = true ∧ scheduleEndOk v = true) := by
  have hsub : v.subtasks.flatMap subtaskIssues = [] := by
    induction v.subtasks with
    | nil => rfl
    | cons a l ih => simp [List.flatMap_cons, subtaskIssues_eq_nil, ih]
  rw [taskIssues, hsub]
  simp [List.append_eq_nil, issueIf_eq_nil]

/-- The dueDate refine fails exactly when a date was provided and its
parsed moment is before `now`, given that a provided date string parses. -/
theorem dueDateOk_false_iff (now : Nat) (v : TaskFormValues)
    (hdue : jsTruthy v.dueDate = true → (jsDateVal (v.dueDate.getD "")).isSome = true) :
    dueDateOk now v = false ↔
      (jsTruthy v.dueDate = true ∧ (jsDateVal (v.dueDate.getD "")).getD 0 < now) := by
  rw [dueDateOk]
  cases htr : jsTruthy v.dueDate with
  | false => simp
  | true =>
    have hs := hdue htr
    cases hp : jsDateVal (v.dueDate.getD "") with
    | none => rw [hp] at hs; simp at hs
    | some k => simp [jsGe, hp, Nat.lt_iff_add_one_le, Nat.not_le]

/-- The scheduleEnd refine fails exactly when the task is scheduled, both
bounds were provided, and the parsed end is before the parsed start, given
that provided schedule strings parse. -/
theorem scheduleEndOk_false_iff (v : TaskFormValues)
    (hstart : v.isScheduled = true → jsTruthy v.scheduleStart = true →
      (jsDateVal (v.scheduleStart.getD "")).isSome = true)
    (hend : v.isScheduled = true → jsTruthy v.scheduleEnd = true →
      (jsDateVal (v.scheduleEnd.getD "")).isSome = true) :
    scheduleEndOk v = false ↔
      (v.isScheduled = true ∧ jsTruthy v.scheduleStart = true
        ∧ jsTruthy v.scheduleEnd = true
        ∧ (jsDateVal (v.scheduleEnd.getD "")).getD 0
            < (jsDateVal (v.scheduleStart.getD "")).getD 0) := by
  rw [scheduleEndOk]
  cases hsch : v.isScheduled with
  | false => simp
  | true =>
    cases hte : jsTruthy v.scheduleEnd with
    | false => simp [hte]
    | true =>
      cases hts : jsTruthy v.scheduleStart with
      | false => simp [hts]
      | true =>
        have h1 := hstart hsch hts
        have h2 := hend hsch hte
        cases hp1 : jsDateVal (v.scheduleStart.getD "") with
        | none => rw [hp1] at h1; simp at h1
        | some a =>
          cases hp2 : jsDateVal (v.scheduleEnd.getD "") with
          | none => rw [hp2] at h2; simp at h2
          | some b => simp [jsGe, hp1, hp2, Nat.not_le]

/-! ### Claim theorems -/

/-- C1 (amended): for every task input whose provided date strings parse,
`taskSchema` validation fails iff the title is empty; the priority or the
status is outside its enumerated set; a dueDate is provided and is earlier
than the current moment; the assignees list is empty (regardless of
`isPersonal`); or the task is scheduled with both schedule bounds provided
and the end before the start.  Missing schedule bounds never fail, and
`isPersonal` grants no exemption from the assignee requirement. -/
theorem taskSchema_invalid_iff (now : Nat) (v : TaskFormValues)
    (hdue : jsTruthy v.dueDate = true → (jsDateVal (v.dueDate.getD "")).isSome = true)
    (hstart : v.isScheduled = true → jsTruthy v.scheduleStart = true →
      (jsDateVal (v.scheduleStart.getD "")).isSome = true)
    (hend : v.isScheduled = true → jsTruthy v.scheduleEnd = true →
      (jsDateVal (v.scheduleEnd.getD "")).isSome = true) :
    taskIssues now v ≠ [] ↔
      (v.title = "" ∨ v.priority ∉ priorityEnum ∨ v.status ∉ statusEnum
        ∨ (jsTruthy v.dueDate = true ∧ (jsDateVal (v.dueDate.getD "")).getD 0 < now)
        ∨ v.assignees = []
        ∨ (v.isScheduled = true ∧ jsTruthy v.scheduleStart = true
            ∧ jsTruthy v.scheduleEnd = true
            ∧ (jsDateVal (v.scheduleEnd.getD "")).getD 0
                < (jsDateVal (v.scheduleStart.getD "")).getD 0)) := by
  have h1 : taskTitleOk v = true ↔ ¬(v.title = "") := by
    simp [taskTitleOk, one_le_strLength_iff]
  have h2 : priorityEnum.contains v.priority = true ↔ v.priority ∈ priorityEnum :=
    List.elem_iff
  have h3 : statusEnum.contains v.status = true ↔ v.status ∈ statusEnum :=
    List.elem_iff
  have h4 : dueDateOk now v = true ↔
      ¬(jsTruthy v.dueDate = true ∧ (jsDateVal (v.dueDate.getD "")).getD 0 < now) := by
    rw [← dueDateOk_false_iff now v hdue]
    cases dueDateOk now v <;> simp
  have h5 : assigneesOk v = true ↔ ¬(v.assignees = []) := by
    cases hv : v.assignees <;> simp [assigneesOk, hv]
  have h6 : scheduleEndOk v = true ↔
      ¬(v.isScheduled = true ∧ jsTruthy v.scheduleStart = true
          ∧ jsTruthy v.scheduleEnd = true
          ∧ (jsDateVal (v.scheduleEnd.getD "")).getD 0
              < (jsDateVal (v.scheduleStart.getD "")).getD 0) := by
    rw [← scheduleEndOk_false_iff v hstart hend]
    cases scheduleEndOk v <;> simp
  rw [Ne, taskIssues_eq_nil_iff, h1, h2, h3, h4, h5, h6]
  constructor
  · intro h
    by_contra hc
    push_neg at hc
    exact h ⟨hc.1, hc.2.1, hc.2.2.1,
      fun hD => absurd hD.2 (Nat.not_lt.mpr (hc.2.2.2.1 hD.1)),
      hc.2.2.2.2.1,
      fun hF => absurd hF.2.2.2
        (Nat.not_lt.mpr (hc.2.2.2.2.2 hF.1 hF.2.1 hF.2.2.1))⟩
  · intro h hc
    rcases h with h | h | h | h | h | h
    · exact hc.1 h
    · exact h hc.2.1
    · exact h hc.2.2.1
    · exact hc.2.2.2.1 h
    · exact hc.2.2.2.2.1 h
    · exact hc.2.2.2.2.2 h

/-- C1 witness: an input failing only the title check, validated at moment
5, instantiates the amended biconditional. -/
theorem taskSchema_invalid_iff_witness :
    ((jsTruthy emptyTitleTask.dueDate = true →
        (jsDateVal (emptyTitleTask.dueDate.getD "")).isSome = true)
      ∧ (emptyTitleTask.isScheduled = true →
          jsTruthy emptyTitleTask.scheduleStart = true →
          (jsDateVal (emptyTitleTask.scheduleStart.getD "")).isSome = true)
      ∧ (emptyTitleTask.isScheduled = true →
          jsTruthy emptyTitleTask.scheduleEnd = true →
          (jsDateVal (emptyTitleTask.scheduleEnd.getD "")).isSome = true))
    ∧ (taskIssues 5 emptyTitleTask ≠ [] ↔
        (emptyTitleTask.title = ""
          ∨ emptyTitleTask.priority ∉ priorityEnum
          ∨ emptyTitleTask.status ∉ statusEnum
          ∨ (jsTruthy emptyTitleTask.dueDate = true
              ∧ (jsDateVal (emptyTitleTask.dueDate.getD "")).getD 0 < 5)
          ∨ emptyTitleTask.assignees = []
          ∨ (emptyTitleTask.isScheduled = true
              ∧ jsTruthy emptyTitleTask.scheduleStart = true
              ∧ jsTruthy emptyTitleTask.scheduleEnd = true
              ∧ (jsDateVal (emptyTitleTask.scheduleEnd.getD "")).getD 0
                  < (jsDateVal (emptyTitleTask.scheduleStart.getD "")).getD 0))) :=
  ⟨⟨by decide, by decide, by decide⟩,
    taskSchema_invalid_iff 5 emptyTitleTask (by decide) (by decide) (by decide)⟩

/-- C1 counterexample: on the personal task with an empty assignees list,
the claimed biconditional is false — `taskSchema` reports an issue (the
unconditional assignee minimum), while the claim's failure condition does
not hold because `isPersonal` is true. -/
theorem taskSchema_claimC1_counterexample :
    ¬ ((taskIssues 0 briefCrewTask ≠ []) ↔
        specTaskValidationFails 0 briefCrewTask = true) := by
  decide

/-- C2: for every event input whose field-level checks pass and whose
`isMultiDay` is false, `eventSchema` validation succeeds iff `endTime`,
read as a same-day clock time, is strictly later than `startTime`; when it
is not strictly later (equal or earlier), the fixed message is attached to
the `endTime` field. -/
theorem eventSchema_sameDay_iff (v : EventFormValues)
    (hf : eventFieldIssues v = []) (hm : v.isMultiDay = false) :
    (eventIssues v = [] ↔
      jsGt (clockVal v.endTime) (clockVal v.startTime) = true)
    ∧ (jsGt (clockVal v.endTime) (clockVal v.startTime) = false →
        ZodIssue.mk ["endTime"] "End time must be after start time" ∈ eventIssues v) := by
  rw [eventIssues, endDateRefineOk, endTimeRefineOk, hf, hm]
  cases hgt : jsGt (clockVal v.endTime) (clockVal v.startTime) <;>
    simp [issueIf]

/-- C2 witness: a well-formed single-day event with times 09:00 and 10:00
instantiates the biconditional (and is in fact accepted). -/
theorem eventSchema_sameDay_iff_witness :
    (eventFieldIssues standupEvent = [] ∧ standupEvent.isMultiDay = false)
    ∧ ((eventIssues standupEvent = [] ↔
          jsGt (clockVal standupEvent.endTime) (clockVal standupEvent.startTime) = true)
        ∧ (jsGt (clockVal standupEvent.endTime) (clockVal standupEvent.startTime) = false →
            ZodIssue.mk ["endTime"] "End time must be after start time"
              ∈ eventIssues standupEvent)) :=
  ⟨⟨by decide, by decide⟩, eventSchema_sameDay_iff standupEvent (by decide) (by decide)⟩

/-- C3: contrary to the claim, the scenario input (a personal task with an
empty assignees list submitted by user "u1") never reaches the mutation:
`handleSubmit` runs `zodResolver(taskSchema)` before `onSubmit`, the
unconditional `assignees.min(1)` check fails, and the submission pipeline
yields no payload — the assignee override in `onSubmit` is unreachable for
this input. -/
theorem taskForm_personal_scenario :
    taskFormSubmit 0 (some "u1") none briefCrewTask = none
    ∧ taskIssues 0 briefCrewTask
        = [⟨["assignees"], "Please select at least one assignee."⟩] := by
  decide

/-- C4: for every event input whose field-level checks pass and whose
`isMultiDay` is true, `eventSchema` validation succeeds iff `endDate` is
absent (not truthy) or parses to a date on or after `startDate`; any
failure carries the fixed ordering message attached to the `endDate`
field.  The "Drill" scenario event fails validation with exactly that
issue. -/
theorem eventSchema_multiDay_iff :
    (∀ v : EventFormValues, eventFieldIssues v = [] → v.isMultiDay = true →
      ((eventIssues v = [] ↔
          (jsTruthy v.endDate = false
            ∨ jsGe (jsDateVal (v.endDate.getD "")) (jsDateVal v.startDate) = true))
        ∧ (eventIssues v ≠ [] →
            ZodIssue.mk ["endDate"] "End date must be start date or later"
              ∈ eventIssues v)))
    ∧ (eventIssues drillEvent ≠ []
        ∧ ZodIssue.mk ["endDate"] "End date must be start date or later"
            ∈ eventIssues drillEvent) := by
  constructor
  · intro v hf hm
    rw [eventIssues, endDateRefineOk, endTimeRefineOk, hf, hm]
    cases htr : jsTruthy v.endDate with
    | false => simp [issueIf]
    | true =>
      cases hge : jsGe (jsDateVal (v.endDate.getD "")) (jsDateVal v.startDate) <;>
        simp [issueIf, hge]
  · constructor
    · decide
    · decide

/-- C4 witness: the "Drill" scenario event instantiates the multi-day
biconditional; both hypotheses hold for it by evaluation. -/
theorem eventSchema_multiDay_iff_witness :
    (eventFieldIssues drillEvent = [] ∧ drillEvent.isMultiDay = true)
    ∧ ((eventIssues drillEvent = [] ↔
          (jsTruthy drillEvent.endDate = false
            ∨ jsGe (jsDateVal (drillEvent.endDate.getD ""))
                (jsDateVal drillEvent.startDate) = true))
        ∧ (eventIssues drillEvent ≠ [] →
            ZodIssue.mk ["endDate"] "End date must be start date or later"
              ∈ eventIssues drillEvent)) :=
  ⟨⟨by decide, by decide⟩,
    eventSchema_multiDay_iff.1 drillEvent (by decide) (by decide)⟩

/-- C5 (amended): `closeAllModals` resets the UI store's `currentEventId`
and `currentTaskId` to null, but it is an action of the UI store alone:
`useTaskStore.selectedTaskId` and `useEventStore.selectedEventId` are left
exactly as they were. -/
theorem closeAllModals_selection (s : AppStores) :
    (closeAllModalsApp s).ui.currentEventId = none
    ∧ (closeAllModalsApp s).ui.currentTaskId = none
    ∧ (closeAllModalsApp s).tasks.selectedTaskId = s.tasks.selectedTaskId
    ∧ (closeAllModalsApp s).events.selectedEventId = s.events.selectedEventId :=
  ⟨rfl, rfl, rfl, rfl⟩

/-- C5 counterexample: from a state with live selections in the task and
event stores, `closeAllModals` does not leave all four selection fields
null — `selectedTaskId` and `selectedEventId` survive. -/
theorem closeAllModals_claimC5_counterexample :
    ¬ ((closeAllModalsApp sampleStores).ui.currentEventId = none
        ∧ (closeAllModalsApp sampleStores).ui.currentTaskId = none
        ∧ (closeAllModalsApp sampleStores).tasks.selectedTaskId = none
        ∧ (closeAllModalsApp sampleStores).events.selectedEventId = none) := by
  decide

/-- C6: `closeAllModals` performs one state update that clears the five
modal-visibility flags, nulls both current selection ids, and leaves every
other UI store field — filters, sort, advanced filters, completed/personal
toggles, theme, sidebar, widget state, view mode — unchanged, from any
starting state. -/
theorem closeAllModals_frame (s : UiState) :
    (closeAllModals s).isEventFormOpen = false
    ∧ (closeAllModals s).isTaskFormOpen = false
    ∧ (closeAllModals s).isCustomizeDashboardOpen = false
    ∧ (closeAllModals s).isFilterPanelOpen = false
    ∧ (closeAllModals s).isUserSettingsOpen = false
    ∧ (closeAllModals s).currentEventId = none
    ∧ (closeAllModals s).currentTaskId = none
    ∧ (closeAllModals s).taskFilterStatus = s.taskFilterStatus
    ∧ (closeAllModals s).taskSortBy = s.taskSortBy
    ∧ (closeAllModals s).taskSortDirection = s.taskSortDirection
    ∧ (closeAllModals s).advancedFilters = s.advancedFilters
    ∧ (closeAllModals s).showCompletedTasks = s.showCompletedTasks
    ∧ (closeAllModals s).showPersonalTasks = s.showPersonalTasks
    ∧ (closeAllModals s).theme = s.theme
    ∧ (closeAllModals s).isSidebarCollapsed = s.isSidebarCollapsed
    ∧ (closeAllModals s).dashboardWidgetState = s.dashboardWidgetState
    ∧ (closeAllModals s).viewMode = s.viewMode :=
  ⟨rfl, rfl, rfl, rfl, rfl, rfl, rfl, rfl, rfl, rfl, rfl, rfl, rfl, rfl,
    rfl, rfl, rfl⟩

/-- C7: the persisted record carries exactly the nine whitelisted
preference fields at their current values (its type has no other field),
and rehydrating it over the initial state restores those nine while every
non-persisted field — the five modal flags, the advanced filters, and both
current selection ids — returns to its compiled-in default. -/
theorem uiStore_persistence (s : UiState) :
    (partialize s).theme = s.theme
    ∧ (partialize s).isSidebarCollapsed = s.isSidebarCollapsed
    ∧ (partialize s).taskFilterStatus = s.taskFilterStatus
    ∧ (partialize s).taskSortBy = s.taskSortBy
    ∧ (partialize s).taskSortDirection = s.taskSortDirection
    ∧ (partialize s).dashboardWidgetState = s.dashboardWidgetState
    ∧ (partialize s).viewMode = s.viewMode
    ∧ (partialize s).showCompletedTasks = s.showCompletedTasks
    ∧ (partialize s).showPersonalTasks = s.showPersonalTasks
    ∧ (rehydrateUi (partialize s)).theme = s.theme
    ∧ (rehydrateUi (partialize s)).isSidebarCollapsed = s.isSidebarCollapsed
    ∧ (rehydrateUi (partialize s)).taskFilterStatus = s.taskFilterStatus
    ∧ (rehydrateUi (partialize s)).taskSortBy = s.taskSortBy
    ∧ (rehydrateUi (partialize s)).taskSortDirection = s.taskSortDirection
    ∧ (rehydrateUi (partialize s)).dashboardWidgetState = s.dashboardWidgetState
    ∧ (rehydrateUi (partialize s)).viewMode = s.viewMode
    ∧ (rehydrateUi (partialize s)).showCompletedTasks = s.showCompletedTasks
    ∧ (rehydrateUi (partialize s)).showPersonalTasks = s.showPersonalTasks
    ∧ (rehydrateUi (partialize s)).isEventFormOpen = initialUiState.isEventFormOpen
    ∧ (rehydrateUi (partialize s)).isTaskFormOpen = initialUiState.isTaskFormOpen
    ∧ (rehydrateUi (partialize s)).isCustomizeDashboardOpen
        = initialUiState.isCustomizeDashboardOpen
    ∧ (rehydrateUi (partialize s)).isFilterPanelOpen = initialUiState.isFilterPanelOpen
    ∧ (rehydrateUi (partialize s)).isUserSettingsOpen = initialUiState.isUserSettingsOpen
    ∧ (rehydrateUi (partialize s)).advancedFilters = initialUiState.advancedFilters
    ∧ (rehydrateUi (partialize s)).currentEventId = none
    ∧ (rehydrateUi (partialize s)).currentTaskId = none :=
  ⟨rfl, rfl, rfl, rfl, rfl, rfl, rfl, rfl, rfl, rfl, rfl, rfl, rfl, rfl,
    rfl, rfl, rfl, rfl, rfl, rfl, rfl, rfl, rfl, rfl, rfl, rfl⟩

/-- C8: completing a task issues an update whose effect sets status to
"Done" and progress to 100; un-completing issues an update that sets
status to "In Progress" and, because its `progress: undefined` entry is
dropped from the serialized payload, leaves the stored progress exactly as
it was. -/
theorem markTaskComplete_update (t : Task) :
    (applyUpdate t (markCompletePayload true)).status = "Done"
    ∧ (applyUpdate t (markCompletePayload true)).progress = some 100
    ∧ (applyUpdate t (markCompletePayload false)).status = "In Progress"
    ∧ (applyUpdate t (markCompletePayload false)).progress = t.progress
    ∧ (markCompletePayload false).progress = none :=
  ⟨rfl, rfl, rfl, rfl, rfl⟩

/-- C9: contrary to the claim, the subtask schema rejects nothing — its
title refine `!val || val.length > 0` passes a present title that trims to
the empty string, because the empty string is falsy; in particular the
all-blank title "   " is accepted. -/
theorem subtaskSchema_accepts_blank_title :
    subtaskIssues { title := some "   " } = []
    ∧ ∀ st : SubtaskInput, subtaskIssues st = [] :=
  ⟨subtaskIssues_eq_nil _, subtaskIssues_eq_nil⟩

/-- C10: an empty status (resp. priority) filter list joins to the empty
string, so the corresponding `fetchTasks` branch is skipped and places no
restriction on any row; with both lists empty and no other active filter
the query returns every stored task. -/
theorem fetchTasks_empty_filters (st : TaskLocalState) (db : List Task) :
    (st.filterByStatus = [] →
      (buildTaskParams st).status = ""
        ∧ ∀ t : Task, statusFilterOk (buildTaskParams st) t = true)
    ∧ (st.filterByPriority = [] →
        (buildTaskParams st).priority = ""
          ∧ ∀ t : Task, priorityFilterOk (buildTaskParams st) t = true)
    ∧ (st.filterByStatus = [] → st.filterByPriority = [] →
        st.searchKeyword = "" → st.showCompletedTasks = true →
        st.showPersonalTasks = true →
        fetchTasksRows (buildTaskParams st) db = db) := by
  refine ⟨fun h1 => ⟨?_, ?_⟩, fun h2 => ⟨?_, ?_⟩, fun h1 h2 h3 h4 h5 => ?_⟩
  · simp [buildTaskParams, h1, intercalate_nil]
  · intro t
    simp [statusFilterOk, buildTaskParams, h1, intercalate_nil]
  · simp [buildTaskParams, h2, intercalate_nil]
  · intro t
    simp [priorityFilterOk, buildTaskParams, h2, intercalate_nil]
  · rw [fetchTasksRows, List.filter_eq_self]
    intro t _
    simp [searchFilterOk, statusFilterOk, priorityFilterOk, completedFilterOk,
      personalFilterOk, buildTaskParams, h1, h2, h3, h4, h5, intercalate_nil]

/-- C10 witness: with both filter lists empty and no other active filter,
the query over the two sample rows returns both of them. -/
theorem fetchTasks_empty_filters_witness :
    emptyFilterState.filterByStatus = []
    ∧ emptyFilterState.filterByPriority = []
    ∧ fetchTasksRows (buildTaskParams emptyFilterState) sampleDb = sampleDb :=
  ⟨rfl, rfl,
    (fetchTasks_empty_filters emptyFilterState sampleDb).2.2 rfl rfl rfl rfl rfl⟩

end JasUi
